import Mathlib

/-!
Shallow embedding of the logging core of `telebotx` (`src/logger.go`).

Modelling conventions:
* Go's `LogLevel` is an `int`; we embed it as `Int` with named constants,
  so the source's ordinal comparisons (`l.level > LogLevelDebug`, …) are
  plain `Int` comparisons.
* Side effects of an emit call are recorded as a trace (`EmitResult`,
  a list of `LogEvent`s): each `log.Logger.Printf` call appends one
  `line` event, and `os.Exit(1)` / `log.Logger.Fatalf`'s exit appends an
  `exitWith 1` event.  Emit methods are state-passing: they return the
  trace together with the receiver state after the call, so that frame
  properties (no field is mutated) are expressible.
* Go's `log.Logger` (standard library, outside this repository) is
  modelled by `GoLogger`: we keep its prefix, which `Printf` prepends to
  each rendered line; the timestamp/file decoration selected by the flag
  bits is implementation-defined per the spec and is abstracted away.
* `fmt`-style interpolation (also standard library) is modelled by
  `sprintf`: each `%`-verb consumes one argument left to right, `%%` is a
  literal percent, and a mismatch degrades best-effort as the spec allows.
* An externally supplied `Logger` implementation (the Go interface) is an
  arbitrary `CustomLogger`: five emit functions plus an effective level.
  `Logger` is the closed dispatch type over the three built-in variants
  and such a custom one; Go's interface value `nil` is `Option.none` in
  `LogConfig`.
-/

namespace Telebot

/-- `LogLevel` from `src/logger.go`: an `int`-valued ordinal. -/
abbrev LogLevel := Int

def LogLevelDebug : LogLevel := 0

def LogLevelInfo : LogLevel := 1

def LogLevelWarn : LogLevel := 2

def LogLevelError : LogLevel := 3

def LogLevelFatal : LogLevel := 4

def LogLevelOff : LogLevel := 5

/-- Embeds `LogLevel.String`: the fixed uppercase tag of each level,
`"UNKNOWN"` for an unrecognized ordinal. -/
def logLevelString (l : LogLevel) : String :=
  if l = LogLevelDebug then "DEBUG"
  else if l = LogLevelInfo then "INFO"
  else if l = LogLevelWarn then "WARN"
  else if l = LogLevelError then "ERROR"
  else if l = LogLevelFatal then "FATAL"
  else if l = LogLevelOff then "OFF"
  else "UNKNOWN"

/-- A printf argument (Go `any`), restricted to the value shapes the
logging contract cares about. -/
inductive Arg where
  | str (s : String)
  | int (n : Int)
deriving Repr, DecidableEq

def Arg.render : Arg → String
  | .str s => s
  | .int n => toString n

/-- Modelled from the spec: printf-style interpolation (Go's `fmt`, which
is outside this repository) applied left-to-right: each `%`-verb consumes
one argument, `%%` is a literal `%`, and an argument/verb mismatch
produces best-effort output rather than a fault. -/
def sprintfAux : List Char → List Arg → List Char
  | [], _ => []
  | c :: rest, args =>
    if c = '%' then
      match rest with
      | [] => ['%']
      | c2 :: rest2 =>
        if c2 = '%' then '%' :: sprintfAux rest2 args
        else
          match args with
          | [] => '%' :: c2 :: sprintfAux rest2 []
          | a :: args2 => a.render.data ++ sprintfAux rest2 args2
    else c :: sprintfAux rest args

def sprintf (format : String) (args : List Arg) : String :=
  String.mk (sprintfAux format.data args)

/-- One observable side effect of an emit call: a line written to the
sink, or process termination with the given exit code. -/
inductive LogEvent where
  | line (s : String)
  | exitWith (code : Int)
deriving Repr, DecidableEq

/-- The trace of side effects of one emit call, in order. -/
abbrev EmitResult := List LogEvent

/-- The lines written during a trace, in order (exit events dropped). -/
def linesOf (t : EmitResult) : List String :=
  t.filterMap fun e =>
    match e with
    | .line s => some s
    | .exitWith _ => none

/-- Model of Go's standard-library `log.Logger` (outside this repository)
as used by `logger.go`: the configured prefix is kept; the timestamp/file
decoration chosen by the flag bits is implementation-defined per the spec
and abstracted away. -/
structure GoLogger where
  Prefix : String
deriving Repr, DecidableEq

/-- `log.Logger.Printf`: renders the format with the arguments and writes
one line, the configured prefix prepended. -/
def GoLogger.Printf (g : GoLogger) (format : String) (args : List Arg) :
    EmitResult :=
  [.line (g.Prefix ++ sprintf format args)]

/-- `log.Logger.Fatalf` (Go standard library): equivalent to `Printf`
followed by `os.Exit(1)`. -/
def GoLogger.Fatalf (g : GoLogger) (format : String) (args : List Arg) :
    EmitResult :=
  g.Printf format args ++ [.exitWith 1]

/-- `log.Default()`: the process-wide default `log.Logger` (empty prefix). -/
def logDefault : GoLogger := { Prefix := "" }

/-- `DefaultLogger` from `src/logger.go`. -/
structure DefaultLogger where
  logger : GoLogger
  enabled : Bool
  level : LogLevel
deriving Repr, DecidableEq

/-- `NewDefaultLogger`: a `DefaultLogger` over a fresh `log.New(os.Stdout,
prefix, log.LstdFlags|log.Lshortfile)`, enabled, at the given level. -/
def NewDefaultLogger (level : LogLevel) (pfx : String) : DefaultLogger :=
  { logger := { Prefix := pfx }, enabled := true, level := level }

def DefaultLogger.Debug (l : DefaultLogger) (msg : String) (args : List Arg) :
    EmitResult × DefaultLogger :=
  if l.enabled = false ∨ l.level > LogLevelDebug then ([], l)
  else (l.logger.Printf ("[DEBUG] " ++ msg) args, l)

def DefaultLogger.Info (l : DefaultLogger) (msg : String) (args : List Arg) :
    EmitResult × DefaultLogger :=
  if l.enabled = false ∨ l.level > LogLevelInfo then ([], l)
  else (l.logger.Printf ("[INFO] " ++ msg) args, l)

def DefaultLogger.Warn (l : DefaultLogger) (msg : String) (args : List Arg) :
    EmitResult × DefaultLogger :=
  if l.enabled = false ∨ l.level > LogLevelWarn then ([], l)
  else (l.logger.Printf ("[WARN] " ++ msg) args, l)

def DefaultLogger.Error (l : DefaultLogger) (msg : String) (args : List Arg) :
    EmitResult × DefaultLogger :=
  if l.enabled = false ∨ l.level > LogLevelError then ([], l)
  else (l.logger.Printf ("[ERROR] " ++ msg) args, l)

/-- `DefaultLogger.Fatal`: logs, then `os.Exit(1)`. -/
def DefaultLogger.Fatal (l : DefaultLogger) (msg : String) (args : List Arg) :
    EmitResult × DefaultLogger :=
  if l.enabled = false ∨ l.level > LogLevelFatal then ([], l)
  else (l.logger.Printf ("[FATAL] " ++ msg) args ++ [.exitWith 1], l)

/-- `DefaultLogger.LogMode`: `Off` when disabled, else the configured level. -/
def DefaultLogger.LogMode (l : DefaultLogger) : LogLevel × DefaultLogger :=
  (if l.enabled = false then LogLevelOff else l.level, l)

/-- Dispatch an emit on a `DefaultLogger` by severity (the five methods
are separate in the source; severities outside `Debug..Fatal` have no
method and yield the empty trace). -/
def DefaultLogger.emitAt (l : DefaultLogger) (S : LogLevel) (msg : String)
    (args : List Arg) : EmitResult × DefaultLogger :=
  if S = LogLevelDebug then l.Debug msg args
  else if S = LogLevelInfo then l.Info msg args
  else if S = LogLevelWarn then l.Warn msg args
  else if S = LogLevelError then l.Error msg args
  else if S = LogLevelFatal then l.Fatal msg args
  else ([], l)

/-- `NoOpLogger` from `src/logger.go`: no state. -/
structure NoOpLogger where
deriving Repr, DecidableEq

def NewNoOpLogger : NoOpLogger := {}

def NoOpLogger.Debug (l : NoOpLogger) (_msg : String) (_args : List Arg) :
    EmitResult × NoOpLogger := ([], l)

def NoOpLogger.Info (l : NoOpLogger) (_msg : String) (_args : List Arg) :
    EmitResult × NoOpLogger := ([], l)

def NoOpLogger.Warn (l : NoOpLogger) (_msg : String) (_args : List Arg) :
    EmitResult × NoOpLogger := ([], l)

def NoOpLogger.Error (l : NoOpLogger) (_msg : String) (_args : List Arg) :
    EmitResult × NoOpLogger := ([], l)

def NoOpLogger.Fatal (l : NoOpLogger) (_msg : String) (_args : List Arg) :
    EmitResult × NoOpLogger := ([], l)

def NoOpLogger.LogMode (l : NoOpLogger) : LogLevel × NoOpLogger :=
  (LogLevelOff, l)

/-- `StdLogger` from `src/logger.go`: wraps a `log.Logger`. -/
structure StdLogger where
  logger : GoLogger
  enabled : Bool
deriving Repr, DecidableEq

/-- `NewStdLogger`: substitutes `log.Default()` for a nil logger. -/
def NewStdLogger (logger : Option GoLogger) (enabled : Bool) : StdLogger :=
  match logger with
  | none => { logger := logDefault, enabled := enabled }
  | some g => { logger := g, enabled := enabled }

def StdLogger.Debug (l : StdLogger) (msg : String) (args : List Arg) :
    EmitResult × StdLogger :=
  if l.enabled = false then ([], l)
  else (l.logger.Printf ("[DEBUG] " ++ msg) args, l)

def StdLogger.Info (l : StdLogger) (msg : String) (args : List Arg) :
    EmitResult × StdLogger :=
  if l.enabled = false then ([], l)
  else (l.logger.Printf ("[INFO] " ++ msg) args, l)

def StdLogger.Warn (l : StdLogger) (msg : String) (args : List Arg) :
    EmitResult × StdLogger :=
  if l.enabled = false then ([], l)
  else (l.logger.Printf ("[WARN] " ++ msg) args, l)

def StdLogger.Error (l : StdLogger) (msg : String) (args : List Arg) :
    EmitResult × StdLogger :=
  if l.enabled = false then ([], l)
  else (l.logger.Printf ("[ERROR] " ++ msg) args, l)

/-- `StdLogger.Fatal`: when enabled, delegates to the sink's `Fatalf`
(write, then exit). -/
def StdLogger.Fatal (l : StdLogger) (msg : String) (args : List Arg) :
    EmitResult × StdLogger :=
  if l.enabled = false then ([], l)
  else (l.logger.Fatalf ("[FATAL] " ++ msg) args, l)

/-- `StdLogger.LogMode`: `Off` when disabled, else the fixed `Debug`. -/
def StdLogger.LogMode (l : StdLogger) : LogLevel × StdLogger :=
  (if l.enabled = false then LogLevelOff else LogLevelDebug, l)

/-- An arbitrary external implementation of the `Logger` interface:
five emit behaviours plus an effective level, all unconstrained. -/
structure CustomLogger where
  debug : String → List Arg → EmitResult
  info : String → List Arg → EmitResult
  warn : String → List Arg → EmitResult
  error : String → List Arg → EmitResult
  fatal : String → List Arg → EmitResult
  logMode : LogLevel

/-- A value of Go's `Logger` interface: one of the three built-in
implementations, or an external one. -/
inductive Logger where
  | noOp (l : NoOpLogger)
  | default (l : DefaultLogger)
  | std (l : StdLogger)
  | custom (c : CustomLogger)

/-- Interface dispatch of `Debug`. -/
def Logger.debug : Logger → String → List Arg → EmitResult
  | .noOp l, msg, args => (l.Debug msg args).1
  | .default l, msg, args => (l.Debug msg args).1
  | .std l, msg, args => (l.Debug msg args).1
  | .custom c, msg, args => c.debug msg args

/-- Interface dispatch of `Info`. -/
def Logger.info : Logger → String → List Arg → EmitResult
  | .noOp l, msg, args => (l.Info msg args).1
  | .default l, msg, args => (l.Info msg args).1
  | .std l, msg, args => (l.Info msg args).1
  | .custom c, msg, args => c.info msg args

/-- Interface dispatch of `Warn`. -/
def Logger.warn : Logger → String → List Arg → EmitResult
  | .noOp l, msg, args => (l.Warn msg args).1
  | .default l, msg, args => (l.Warn msg args).1
  | .std l, msg, args => (l.Warn msg args).1
  | .custom c, msg, args => c.warn msg args

/-- Interface dispatch of `Error`. -/
def Logger.error : Logger → String → List Arg → EmitResult
  | .noOp l, msg, args => (l.Error msg args).1
  | .default l, msg, args => (l.Error msg args).1
  | .std l, msg, args => (l.Error msg args).1
  | .custom c, msg, args => c.error msg args

/-- Interface dispatch of `Fatal`. -/
def Logger.fatal : Logger → String → List Arg → EmitResult
  | .noOp l, msg, args => (l.Fatal msg args).1
  | .default l, msg, args => (l.Fatal msg args).1
  | .std l, msg, args => (l.Fatal msg args).1
  | .custom c, msg, args => c.fatal msg args

/-- Interface dispatch of `LogMode`. -/
def Logger.logMode : Logger → LogLevel
  | .noOp l => l.LogMode.1
  | .default l => l.LogMode.1
  | .std l => l.LogMode.1
  | .custom c => c.logMode

/-- `LogConfig` from `src/logger.go`; the interface-typed `Logger` field
is `none` when nil. -/
structure LogConfig where
  Enable : Bool
  Level : LogLevel
  Prefix : String
  Logger : Option Logger

/-- `NewLogger` from `src/logger.go`: the factory's decision order. -/
def NewLogger (config : LogConfig) : Logger :=
  if config.Enable = false then .noOp NewNoOpLogger
  else
    match config.Logger with
    | some l => l
    | none => .default (NewDefaultLogger config.Level config.Prefix)

/-! ### Helper lemmas -/

theorem strAppend_data (a b : String) : (a ++ b).data = a.data ++ b.data := by
  cases a
  cases b
  rfl

theorem strAppend_assoc (a b c : String) : a ++ b ++ c = a ++ (b ++ c) := by
  obtain ⟨xa⟩ := a
  obtain ⟨xb⟩ := b
  obtain ⟨xc⟩ := c
  show String.mk (xa ++ xb ++ xc) = String.mk (xa ++ (xb ++ xc))
  rw [List.append_assoc]

theorem sprintfAux_cons_ne (c : Char) (rest : List Char) (args : List Arg)
    (h : c ≠ '%') : sprintfAux (c :: rest) args = c :: sprintfAux rest args := by
  rw [sprintfAux.eq_def]
  exact if_neg h

/-- Interpolation leaves a verb-free leading segment of the format
literally in place. -/
theorem sprintfAux_append (t m : List Char) (args : List Arg) (h : '%' ∉ t) :
    sprintfAux (t ++ m) args = t ++ sprintfAux m args := by
  induction t with
  | nil => rfl
  | cons c t ih =>
    rw [List.mem_cons, not_or] at h
    rw [List.cons_append, sprintfAux_cons_ne c (t ++ m) args (Ne.symm h.1), ih h.2,
      List.cons_append]

theorem sprintf_append (t m : String) (args : List Arg) (h : '%' ∉ t.data) :
    sprintf (t ++ m) args = t ++ sprintf m args := by
  obtain ⟨td⟩ := t
  obtain ⟨md⟩ := m
  show String.mk (sprintfAux (td ++ md) args) = String.mk (td ++ sprintfAux md args)
  rw [sprintfAux_append td md args h]

theorem tagged_render (p tagfull tag sm : String) (htag : tagfull = "[" ++ tag ++ "] ") :
    p ++ (tagfull ++ sm) = p ++ "[" ++ tag ++ "] " ++ sm := by
  subst htag
  simp [strAppend_assoc]

/-- What a `Printf` of a bracket-tagged format writes: the prefix, the
tag, the interpolated message. -/
theorem printf_tag (g : GoLogger) (tagfull tag msg : String) (args : List Arg)
    (hnp : '%' ∉ tagfull.data) (htag : tagfull = "[" ++ tag ++ "] ") :
    g.Printf (tagfull ++ msg) args
      = [.line (g.Prefix ++ "[" ++ tag ++ "] " ++ sprintf msg args)] := by
  rw [GoLogger.Printf, sprintf_append tagfull msg args hnp,
    tagged_render g.Prefix tagfull tag (sprintf msg args) htag]

theorem linesOf_nil : linesOf [] = [] := rfl

theorem linesOf_line (s : String) : linesOf [.line s] = [s] := rfl

theorem linesOf_line_exit (s : String) (c : Int) :
    linesOf [.line s, .exitWith c] = [s] := rfl

/-- The five severities with emit methods. -/
theorem severityCases (T : Int) (h0 : 0 ≤ T) (h4 : T ≤ 4) :
    T = 0 ∨ T = 1 ∨ T = 2 ∨ T = 3 ∨ T = 4 := by
  omega

/-- A `DefaultLogger` emit that passes the filter writes exactly the
tagged, interpolated line. -/
theorem emitAt_pass (l : DefaultLogger) (S : LogLevel) (h0 : LogLevelDebug ≤ S)
    (h4 : S ≤ LogLevelFatal) (hen : l.enabled = true) (hlev : l.level ≤ S)
    (msg : String) (args : List Arg) :
    linesOf (l.emitAt S msg args).1
      = [l.logger.Prefix ++ "[" ++ logLevelString S ++ "] " ++ sprintf msg args] := by
  rcases severityCases S h0 h4 with rfl | rfl | rfl | rfl | rfl
  · have hg : ¬(l.enabled = false ∨ l.level > LogLevelDebug) := by
      rw [not_or]
      exact ⟨by simp [hen], not_lt.mpr hlev⟩
    rw [show DefaultLogger.emitAt l 0 msg args = l.Debug msg args from by
      norm_num [DefaultLogger.emitAt, LogLevelDebug]]
    rw [DefaultLogger.Debug, if_neg hg]
    rw [printf_tag l.logger "[DEBUG] " "DEBUG" msg args (by decide) (by decide),
      linesOf_line, show logLevelString 0 = "DEBUG" from by decide]
  · have hg : ¬(l.enabled = false ∨ l.level > LogLevelInfo) := by
      rw [not_or]
      exact ⟨by simp [hen], not_lt.mpr hlev⟩
    rw [show DefaultLogger.emitAt l 1 msg args = l.Info msg args from by
      norm_num [DefaultLogger.emitAt, LogLevelDebug, LogLevelInfo]]
    rw [DefaultLogger.Info, if_neg hg]
    rw [printf_tag l.logger "[INFO] " "INFO" msg args (by decide) (by decide),
      linesOf_line, show logLevelString 1 = "INFO" from by decide]
  · have hg : ¬(l.enabled = false ∨ l.level > LogLevelWarn) := by
      rw [not_or]
      exact ⟨by simp [hen], not_lt.mpr hlev⟩
    rw [show DefaultLogger.emitAt l 2 msg args = l.Warn msg args from by
      norm_num [DefaultLogger.emitAt, LogLevelDebug, LogLevelInfo, LogLevelWarn]]
    rw [DefaultLogger.Warn, if_neg hg]
    rw [printf_tag l.logger "[WARN] " "WARN" msg args (by decide) (by decide),
      linesOf_line, show logLevelString 2 = "WARN" from by decide]
  · have hg : ¬(l.enabled = false ∨ l.level > LogLevelError) := by
      rw [not_or]
      exact ⟨by simp [hen], not_lt.mpr hlev⟩
    rw [show DefaultLogger.emitAt l 3 msg args = l.Error msg args from by
      norm_num [DefaultLogger.emitAt, LogLevelDebug, LogLevelInfo, LogLevelWarn,
        LogLevelError]]
    rw [DefaultLogger.Error, if_neg hg]
    rw [printf_tag l.logger "[ERROR] " "ERROR" msg args (by decide) (by decide),
      linesOf_line, show logLevelString 3 = "ERROR" from by decide]
  · have hg : ¬(l.enabled = false ∨ l.level > LogLevelFatal) := by
      rw [not_or]
      exact ⟨by simp [hen], not_lt.mpr hlev⟩
    rw [show DefaultLogger.emitAt l 4 msg args = l.Fatal msg args from by
      norm_num [DefaultLogger.emitAt, LogLevelDebug, LogLevelInfo, LogLevelWarn,
        LogLevelError, LogLevelFatal]]
    rw [DefaultLogger.Fatal, if_neg hg,
      printf_tag l.logger "[FATAL] " "FATAL" msg args (by decide) (by decide)]
    rw [show ([LogEvent.line (l.logger.Prefix ++ "[" ++ "FATAL" ++ "] "
        ++ sprintf msg args)] ++ [LogEvent.exitWith 1])
          = [LogEvent.line (l.logger.Prefix ++ "[" ++ "FATAL" ++ "] "
            ++ sprintf msg args), LogEvent.exitWith 1] from rfl]
    rw [linesOf_line_exit, show logLevelString 4 = "FATAL" from by decide]

/-- A `DefaultLogger` emit that fails the filter (disabled, or severity
strictly below the level) produces no event at all. -/
theorem emitAt_skip (l : DefaultLogger) (S : LogLevel) (h0 : LogLevelDebug ≤ S)
    (h4 : S ≤ LogLevelFatal) (hskip : l.enabled = false ∨ S < l.level)
    (msg : String) (args : List Arg) :
    (l.emitAt S msg args).1 = [] := by
  rcases severityCases S h0 h4 with rfl | rfl | rfl | rfl | rfl
  · have hg : l.enabled = false ∨ l.level > LogLevelDebug := hskip
    rw [show DefaultLogger.emitAt l 0 msg args = l.Debug msg args from by
      norm_num [DefaultLogger.emitAt, LogLevelDebug]]
    rw [DefaultLogger.Debug, if_pos hg]
  · have hg : l.enabled = false ∨ l.level > LogLevelInfo := hskip
    rw [show DefaultLogger.emitAt l 1 msg args = l.Info msg args from by
      norm_num [DefaultLogger.emitAt, LogLevelDebug, LogLevelInfo]]
    rw [DefaultLogger.Info, if_pos hg]
  · have hg : l.enabled = false ∨ l.level > LogLevelWarn := hskip
    rw [show DefaultLogger.emitAt l 2 msg args = l.Warn msg args from by
      norm_num [DefaultLogger.emitAt, LogLevelDebug, LogLevelInfo, LogLevelWarn]]
    rw [DefaultLogger.Warn, if_pos hg]
  · have hg : l.enabled = false ∨ l.level > LogLevelError := hskip
    rw [show DefaultLogger.emitAt l 3 msg args = l.Error msg args from by
      norm_num [DefaultLogger.emitAt, LogLevelDebug, LogLevelInfo, LogLevelWarn,
        LogLevelError]]
    rw [DefaultLogger.Error, if_pos hg]
  · have hg : l.enabled = false ∨ l.level > LogLevelFatal := hskip
    rw [show DefaultLogger.emitAt l 4 msg args = l.Fatal msg args from by
      norm_num [DefaultLogger.emitAt, LogLevelDebug, LogLevelInfo, LogLevelWarn,
        LogLevelError, LogLevelFatal]]
    rw [DefaultLogger.Fatal, if_pos hg]

/-! ### Claim theorems -/

/-- A concrete external logger implementation, used by witnesses. -/
def demoCustom : CustomLogger :=
  { debug := fun _ _ => []
    info := fun _ _ => []
    warn := fun _ _ => []
    error := fun _ _ => []
    fatal := fun _ _ => []
    logMode := LogLevelDebug }

/-- C1: `NewLogger` decides in a fixed order, first match winning: with
`Enable = false` it returns a `NoOpLogger` regardless of every other field
(including a supplied external logger); else a supplied non-nil external
logger is returned exactly as given; else it builds a `DefaultLogger`
from the config's `Level` and `Prefix`. -/
theorem newLogger_decision_order (c : LogConfig) :
    (c.Enable = false → NewLogger c = .noOp NewNoOpLogger)
    ∧ (c.Enable = true → ∀ l, c.Logger = some l → NewLogger c = l)
    ∧ (c.Enable = true → c.Logger = none →
        NewLogger c = .default (NewDefaultLogger c.Level c.Prefix)) := by
  refine ⟨fun h => ?_, fun h l hl => ?_, fun h hn => ?_⟩
  · simp [NewLogger, h]
  · simp [NewLogger, h, hl]
  · simp [NewLogger, h, hn]

theorem newLogger_decision_order_witness :
    NewLogger ⟨false, LogLevelWarn, "p", some (.custom demoCustom)⟩
        = .noOp NewNoOpLogger
    ∧ NewLogger ⟨true, LogLevelWarn, "p", some (.custom demoCustom)⟩
        = .custom demoCustom
    ∧ NewLogger ⟨true, LogLevelWarn, "q", none⟩
        = .default (NewDefaultLogger LogLevelWarn "q") :=
  ⟨(newLogger_decision_order _).1 rfl,
   (newLogger_decision_order _).2.1 rfl _ rfl,
   (newLogger_decision_order _).2.2 rfl rfl⟩

/-- C3: with `Enable = false` the factory's logger reports `Off` from
`LogMode` and every one of its five emit operations writes nothing,
irrespective of `Level`, `Prefix` or a supplied external logger. -/
theorem newLogger_disabled_silent (c : LogConfig) (h : c.Enable = false)
    (msg : String) (args : List Arg) :
    (NewLogger c).logMode = LogLevelOff
    ∧ (NewLogger c).debug msg args = []
    ∧ (NewLogger c).info msg args = []
    ∧ (NewLogger c).warn msg args = []
    ∧ (NewLogger c).error msg args = []
    ∧ (NewLogger c).fatal msg args = [] := by
  have hn : NewLogger c = .noOp NewNoOpLogger := by simp [NewLogger, h]
  rw [hn]
  exact ⟨rfl, rfl, rfl, rfl, rfl, rfl⟩

theorem newLogger_disabled_silent_witness :
    (NewLogger ⟨false, LogLevelDebug, "pre", some (.custom demoCustom)⟩).logMode
        = LogLevelOff
    ∧ (NewLogger ⟨false, LogLevelDebug, "pre", some (.custom demoCustom)⟩).fatal
        "boom %d" [.int 7] = [] :=
  ⟨(newLogger_disabled_silent _ rfl "boom %d" [.int 7]).1,
   (newLogger_disabled_silent _ rfl "boom %d" [.int 7]).2.2.2.2.2⟩

/-- C4: with `Enable = true` and no external logger, the factory returns
a `DefaultLogger` built from the config, and that logger's `LogMode`
returns exactly the config's `Level`. -/
theorem newLogger_default_level (c : LogConfig) (hE : c.Enable = true)
    (hL : c.Logger = none) :
    NewLogger c = .default (NewDefaultLogger c.Level c.Prefix)
    ∧ (NewLogger c).logMode = c.Level := by
  have h : NewLogger c = .default (NewDefaultLogger c.Level c.Prefix) := by
    simp [NewLogger, hE, hL]
  refine ⟨h, ?_⟩
  rw [h]
  simp [Logger.logMode, DefaultLogger.LogMode, NewDefaultLogger]

theorem newLogger_default_level_witness :
    NewLogger ⟨true, LogLevelError, "pp", none⟩
        = .default (NewDefaultLogger LogLevelError "pp")
    ∧ (NewLogger ⟨true, LogLevelError, "pp", none⟩).logMode = LogLevelError :=
  newLogger_default_level ⟨true, LogLevelError, "pp", none⟩ rfl rfl

/-- C8: `NewStdLogger` substitutes the process-wide default logger for a
nil `log.Logger`, so the constructed `StdLogger` always holds a concrete
sink; a supplied logger is stored as given. -/
theorem newStdLogger_nil_default (enabled : Bool) :
    (NewStdLogger none enabled).logger = logDefault
    ∧ NewStdLogger none enabled = { logger := logDefault, enabled := enabled }
    ∧ ∀ g, NewStdLogger (some g) enabled = { logger := g, enabled := enabled } :=
  ⟨rfl, rfl, fun _ => rfl⟩

/-- C9: a disabled `StdLogger`'s `Fatal` returns without writing and
without terminating, exactly like the other four emit operations. -/
theorem stdLogger_disabled_fatal_silent (l : StdLogger) (h : l.enabled = false)
    (msg : String) (args : List Arg) :
    (l.Fatal msg args).1 = []
    ∧ (l.Debug msg args).1 = []
    ∧ (l.Info msg args).1 = []
    ∧ (l.Warn msg args).1 = []
    ∧ (l.Error msg args).1 = [] := by
  simp [StdLogger.Fatal, StdLogger.Debug, StdLogger.Info, StdLogger.Warn,
    StdLogger.Error, h]

theorem stdLogger_disabled_fatal_silent_witness :
    ((NewStdLogger none false).Fatal "bye %s" [.str "now"]).1 = [] :=
  (stdLogger_disabled_fatal_silent (NewStdLogger none false) rfl
    "bye %s" [.str "now"]).1

/-- C10: no operation of the contract mutates the logger: for each of
`DefaultLogger`, `StdLogger` and `NoOpLogger`, the five emit operations
and `LogMode` return the receiver state unchanged. -/
theorem logger_no_mutation (d : DefaultLogger) (s : StdLogger) (n : NoOpLogger)
    (msg : String) (args : List Arg) :
    ((d.Debug msg args).2 = d ∧ (d.Info msg args).2 = d
      ∧ (d.Warn msg args).2 = d ∧ (d.Error msg args).2 = d
      ∧ (d.Fatal msg args).2 = d ∧ d.LogMode.2 = d)
    ∧ ((s.Debug msg args).2 = s ∧ (s.Info msg args).2 = s
      ∧ (s.Warn msg args).2 = s ∧ (s.Error msg args).2 = s
      ∧ (s.Fatal msg args).2 = s ∧ s.LogMode.2 = s)
    ∧ ((n.Debug msg args).2 = n ∧ (n.Info msg args).2 = n
      ∧ (n.Warn msg args).2 = n ∧ (n.Error msg args).2 = n
      ∧ (n.Fatal msg args).2 = n ∧ n.LogMode.2 = n) := by
  refine ⟨⟨?_, ?_, ?_, ?_, ?_, rfl⟩, ⟨?_, ?_, ?_, ?_, ?_, rfl⟩,
    rfl, rfl, rfl, rfl, rfl, rfl⟩ <;>
    simp [DefaultLogger.Debug, DefaultLogger.Info, DefaultLogger.Warn,
      DefaultLogger.Error, DefaultLogger.Fatal, StdLogger.Debug, StdLogger.Info,
      StdLogger.Warn, StdLogger.Error, StdLogger.Fatal, apply_ite]

/-- C2: an emit at severity `S` (`Debug..Fatal`) on an enabled
`DefaultLogger` at level `L` writes exactly one line — the bracketed
uppercase tag of `S` followed by the interpolated message — when `L ≤ S`;
when `S < L`, or the logger is disabled, it writes nothing at all (and
produces no event whatsoever). -/
theorem defaultLogger_level_filter (l : DefaultLogger) (S : LogLevel)
    (h0 : LogLevelDebug ≤ S) (h4 : S ≤ LogLevelFatal) (msg : String)
    (args : List Arg) :
    (l.enabled = true → l.level ≤ S →
      linesOf (l.emitAt S msg args).1
        = [l.logger.Prefix ++ "[" ++ logLevelString S ++ "] "
            ++ sprintf msg args])
    ∧ (l.enabled = false ∨ S < l.level → (l.emitAt S msg args).1 = []) :=
  ⟨fun hen hlev => emitAt_pass l S h0 h4 hen hlev msg args,
   fun hskip => emitAt_skip l S h0 h4 hskip msg args⟩

theorem defaultLogger_level_filter_witness :
    linesOf ((NewDefaultLogger LogLevelWarn "w: ").emitAt LogLevelWarn
        "x=%d" [.int 5]).1
      = [(NewDefaultLogger LogLevelWarn "w: ").logger.Prefix ++ "["
          ++ logLevelString LogLevelWarn ++ "] " ++ sprintf "x=%d" [.int 5]]
    ∧ ((NewDefaultLogger LogLevelWarn "w: ").emitAt LogLevelDebug
        "x=%d" [.int 5]).1 = [] :=
  ⟨(defaultLogger_level_filter (NewDefaultLogger LogLevelWarn "w: ")
      LogLevelWarn (by decide) (by decide) "x=%d" [.int 5]).1 rfl (by decide),
   (defaultLogger_level_filter (NewDefaultLogger LogLevelWarn "w: ")
      LogLevelDebug (by decide) (by decide) "x=%d" [.int 5]).2
      (Or.inr (by decide))⟩

/-- C5: `StdLogger` gates solely on `enabled`, with no severity
filtering: when enabled, each of the five emits writes its bracketed tag
and interpolated message; when disabled, every emit produces nothing;
`LogMode` is the fixed `Debug` when enabled and `Off` when disabled. -/
theorem stdLogger_passthrough (l : StdLogger) (msg : String) (args : List Arg) :
    (l.enabled = true →
      linesOf (l.Debug msg args).1
          = [l.logger.Prefix ++ "[" ++ logLevelString LogLevelDebug ++ "] "
              ++ sprintf msg args]
      ∧ linesOf (l.Info msg args).1
          = [l.logger.Prefix ++ "[" ++ logLevelString LogLevelInfo ++ "] "
              ++ sprintf msg args]
      ∧ linesOf (l.Warn msg args).1
          = [l.logger.Prefix ++ "[" ++ logLevelString LogLevelWarn ++ "] "
              ++ sprintf msg args]
      ∧ linesOf (l.Error msg args).1
          = [l.logger.Prefix ++ "[" ++ logLevelString LogLevelError ++ "] "
              ++ sprintf msg args]
      ∧ linesOf (l.Fatal msg args).1
          = [l.logger.Prefix ++ "[" ++ logLevelString LogLevelFatal ++ "] "
              ++ sprintf msg args])
    ∧ (l.enabled = false →
      (l.Debug msg args).1 = [] ∧ (l.Info msg args).1 = []
      ∧ (l.Warn msg args).1 = [] ∧ (l.Error msg args).1 = []
      ∧ (l.Fatal msg args).1 = [])
    ∧ l.LogMode.1 = (if l.enabled = true then LogLevelDebug else LogLevelOff) := by
  refine ⟨fun hen => ?_, fun hdis => ?_, ?_⟩
  · have hg : ¬l.enabled = false := by simp [hen]
    refine ⟨?_, ?_, ?_, ?_, ?_⟩
    · rw [StdLogger.Debug, if_neg hg,
        printf_tag l.logger "[DEBUG] " "DEBUG" msg args (by decide) (by decide),
        linesOf_line, show logLevelString LogLevelDebug = "DEBUG" from by decide]
    · rw [StdLogger.Info, if_neg hg,
        printf_tag l.logger "[INFO] " "INFO" msg args (by decide) (by decide),
        linesOf_line, show logLevelString LogLevelInfo = "INFO" from by decide]
    · rw [StdLogger.Warn, if_neg hg,
        printf_tag l.logger "[WARN] " "WARN" msg args (by decide) (by decide),
        linesOf_line, show logLevelString LogLevelWarn = "WARN" from by decide]
    · rw [StdLogger.Error, if_neg hg,
        printf_tag l.logger "[ERROR] " "ERROR" msg args (by decide) (by decide),
        linesOf_line, show logLevelString LogLevelError = "ERROR" from by decide]
    · rw [StdLogger.Fatal, if_neg hg, GoLogger.Fatalf,
        printf_tag l.logger "[FATAL] " "FATAL" msg args (by decide) (by decide),
        show logLevelString LogLevelFatal = "FATAL" from by decide]
      rfl
  · simp [StdLogger.Debug, StdLogger.Info, StdLogger.Warn, StdLogger.Error,
      StdLogger.Fatal, hdis]
  · cases hE : l.enabled <;> simp [StdLogger.LogMode, hE]

theorem stdLogger_passthrough_witness :
    linesOf ((NewStdLogger (some ⟨"[CUSTOM] "⟩) true).Debug "hello" []).1
      = [(NewStdLogger (some ⟨"[CUSTOM] "⟩) true).logger.Prefix ++ "["
          ++ logLevelString LogLevelDebug ++ "] " ++ sprintf "hello" []]
    ∧ ((NewStdLogger (some ⟨"[CUSTOM] "⟩) false).Fatal "hello" []).1 = [] :=
  ⟨((stdLogger_passthrough (NewStdLogger (some ⟨"[CUSTOM] "⟩) true)
      "hello" []).1 rfl).1,
   ((stdLogger_passthrough (NewStdLogger (some ⟨"[CUSTOM] "⟩) false)
      "hello" []).2.1 rfl).2.2.2.2⟩

/-- C6: `DefaultLogger.Fatal` terminates the process with the non-zero
status 1, and only after writing the rendered line, exactly when the
logger is enabled and its level is at or below `Fatal`; when the filter
does not pass it neither writes nor terminates. -/
theorem defaultLogger_fatal_gate (l : DefaultLogger) (msg : String)
    (args : List Arg) :
    (l.enabled = true → l.level ≤ LogLevelFatal →
      (l.Fatal msg args).1
        = [.line (l.logger.Prefix ++ "[" ++ logLevelString LogLevelFatal
            ++ "] " ++ sprintf msg args), .exitWith 1])
    ∧ (l.enabled = false ∨ LogLevelFatal < l.level →
        (l.Fatal msg args).1 = []) := by
  constructor
  · intro hen hlev
    have hg : ¬(l.enabled = false ∨ l.level > LogLevelFatal) := by
      rw [not_or]
      exact ⟨by simp [hen], not_lt.mpr hlev⟩
    rw [DefaultLogger.Fatal, if_neg hg,
      printf_tag l.logger "[FATAL] " "FATAL" msg args (by decide) (by decide),
      show logLevelString LogLevelFatal = "FATAL" from by decide]
    rfl
  · intro hskip
    have hg : l.enabled = false ∨ l.level > LogLevelFatal := hskip
    rw [DefaultLogger.Fatal, if_pos hg]

theorem defaultLogger_fatal_gate_witness :
    ((NewDefaultLogger LogLevelFatal "f: ").Fatal "stop %s" [.str "now"]).1
      = [.line ((NewDefaultLogger LogLevelFatal "f: ").logger.Prefix ++ "["
          ++ logLevelString LogLevelFatal ++ "] "
          ++ sprintf "stop %s" [.str "now"]), .exitWith 1]
    ∧ ({ logger := ⟨"f: "⟩, enabled := false, level := LogLevelFatal
        : DefaultLogger }.Fatal "stop %s" [.str "now"]).1 = [] :=
  ⟨(defaultLogger_fatal_gate (NewDefaultLogger LogLevelFatal "f: ")
      "stop %s" [.str "now"]).1 rfl (by decide),
   (defaultLogger_fatal_gate
      { logger := ⟨"f: "⟩, enabled := false, level := LogLevelFatal }
      "stop %s" [.str "now"]).2 (Or.inl rfl)⟩

/-- C7: `Enable = true` with `Level = Off` and no external logger still
constructs a `DefaultLogger` (Off does not disable construction), and
that logger produces no event — no line, no termination — for any emit at
any severity `Debug` through `Fatal`. -/
theorem newLogger_level_off_silent (c : LogConfig) (hE : c.Enable = true)
    (hL : c.Level = LogLevelOff) (hn : c.Logger = none) (S : LogLevel)
    (h0 : LogLevelDebug ≤ S) (h4 : S ≤ LogLevelFatal) (msg : String)
    (args : List Arg) :
    NewLogger c = .default (NewDefaultLogger LogLevelOff c.Prefix)
    ∧ ((NewDefaultLogger LogLevelOff c.Prefix).emitAt S msg args).1 = [] := by
  constructor
  · simp [NewLogger, hE, hn, hL]
  · apply emitAt_skip _ _ h0 h4 _ msg args
    right
    have h5 : S < LogLevelOff := lt_of_le_of_lt h4 (by decide)
    exact h5

theorem newLogger_level_off_silent_witness :
    NewLogger ⟨true, LogLevelOff, "z", none⟩
      = .default (NewDefaultLogger LogLevelOff "z")
    ∧ ((NewDefaultLogger LogLevelOff "z").emitAt LogLevelFatal
        "gone %d" [.int 1]).1 = [] :=
  newLogger_level_off_silent ⟨true, LogLevelOff, "z", none⟩ rfl rfl rfl
    LogLevelFatal (by decide) (by decide) "gone %d" [.int 1]

end Telebot
